import Mathlib

/-!
Shallow embedding of the XRay proxy validator
(src/proxy_validator.py with the settings of src/config.py).

Python strings are modelled as lists of characters (PyStr), so that all
operations reduce inside the kernel.  The helper functions below model the
exact Python primitives the source uses: str.split(sep) for a one-character
separator, str.rsplit(sep, 1), sep.join(...), int(...), str.lower() and
str.startswith(...).  Network effects (socket.connect, socket.gethostbyname)
are modelled by an explicit oracle record passed to the functions that
perform them; everything else is translated line by line from the source.
-/

/-- Model of a Python string: its list of characters. -/
abbrev PyStr := List Char

/-- Model of Python str.split(sep) for a single-character separator:
splits on every occurrence of sep; the result is never empty and has
length (number of occurrences of sep) + 1. -/
def splitOnChar (sep : Char) : PyStr → List PyStr
  | [] => [[]]
  | c :: rest =>
    if c = sep then [] :: splitOnChar sep rest
    else
      match splitOnChar sep rest with
      | [] => [[c]]
      | p :: ps => (c :: p) :: ps

/-- Model of Python sep.join(parts). -/
def joinWith (sep : PyStr) : List PyStr → PyStr
  | [] => []
  | [x] => x
  | x :: xs => x ++ sep ++ joinWith sep xs

/-- Characters stripped by Python int() around the digits
(the ASCII whitespace characters). -/
def pySpace (c : Char) : Bool :=
  c = ' ' || c = '\t' || c = '\n' || c = '\r' || c = '\x0b' || c = '\x0c'

/-- Strip leading and trailing whitespace, as Python int() does. -/
def pyStrip (s : PyStr) : PyStr :=
  ((s.dropWhile pySpace).reverse.dropWhile pySpace).reverse

/-- Continuation of a valid Python integer digit sequence after a digit:
further digits, with single underscores allowed only between digits. -/
def pyDigitTail : PyStr → Bool
  | [] => true
  | '_' :: c :: rest => c.isDigit && pyDigitTail rest
  | c :: rest => c.isDigit && pyDigitTail rest

/-- A valid Python integer digit sequence: nonempty, starting with a digit,
underscores only between digits. -/
def pyDigitBody : PyStr → Bool
  | [] => false
  | c :: rest => c.isDigit && pyDigitTail rest

/-- Numeric value of a digit sequence, ignoring underscores. -/
def digitsVal (s : PyStr) : Nat :=
  (s.filter (fun c => c != '_')).foldl (fun a c => 10 * a + (c.toNat - 48)) 0

/-- Model of Python int(s): strips ASCII whitespace, accepts an optional
sign followed by a digit sequence (ASCII digits, underscores between
digits); returns none where Python raises ValueError. -/
def pyInt (s : PyStr) : Option Int :=
  match pyStrip s with
  | '+' :: rest => if pyDigitBody rest then some (Int.ofNat (digitsVal rest)) else none
  | '-' :: rest => if pyDigitBody rest then some (-(Int.ofNat (digitsVal rest))) else none
  | rest => if pyDigitBody rest then some (Int.ofNat (digitsVal rest)) else none

/-- Model of Python str.lower() (ASCII case folding, which is all the
source compares against). -/
def lowerStr (s : PyStr) : PyStr := s.map Char.toLower

/-!  Configuration constants from src/config.py.  -/

/-- config.py line 29. -/
def ENABLE_STAGE3_IP_REPUTATION : Bool := true

/-- config.py line 33. -/
def ENABLE_STAGE7_TLS_VALIDATION : Bool := true

/-- config.py line 67: cache TTL in seconds, declared with the comment
that results are cached for one hour; the validator never reads it. -/
def BLACKLIST_CACHE_TIME : Nat := 3600

/-!  ProxyValidator.detect_protocol (proxy_validator.py lines 250-268).  -/

/-- Translation of detect_protocol: scheme detection by case-insensitive
prefix match, anything else is Unknown. -/
def detect_protocol (uri : PyStr) : PyStr :=
  if ("vless://".toList).isPrefixOf (lowerStr uri) then "VLESS".toList
  else if ("vmess://".toList).isPrefixOf (lowerStr uri) then "VMess".toList
  else if ("trojan://".toList).isPrefixOf (lowerStr uri) then "Trojan".toList
  else if ("ss://".toList).isPrefixOf (lowerStr uri) then "ShadowSocks".toList
  else "Unknown".toList

/-!  ProxyValidator.extract_host_port (proxy_validator.py lines 270-289).

The Python body is
    if '@' in uri:
        host_port = uri.split('@')[1].split('?')[0]
        if ':' in host_port:
            parts = host_port.rsplit(':', 1)
            return parts[0], int(parts[1])
    return None, None
inside a try/except that turns the possible ValueError of int into
(None, None).  The guard "'@' in uri" holds exactly when the split has a
second element, and "':' in host_port" exactly when the colon split has at
least two parts; rsplit(sep, 1) keeps everything before the last colon
(joined back with colons) and the text after it.  -/

/-- Translation of extract_host_port.  Returns none where Python returns
(None, None). -/
def extract_host_port (uri : PyStr) : Option (PyStr × Int) :=
  match splitOnChar '@' uri with
  | _ :: seg :: _ =>
    match splitOnChar '?' seg with
    | host_port :: _ =>
      match splitOnChar ':' host_port with
      | [_] => none
      | parts =>
        match pyInt (parts.getLastD []) with
        | some p => some (joinWith [':'] parts.dropLast, p)
        | none => none
    | [] => none
  | _ => none

/-!  ProxyValidator.stage3_ip_reputation (proxy_validator.py lines 96-134).  -/

/-- Result dictionary of the reputation stage: the aggregate blacklisted
flag and the ordered per-service checks entries. -/
structure Reputation where
  blacklisted : Bool
  checks : List (PyStr × PyStr)
deriving DecidableEq

/-- The three DNSBL services hard-coded in stage3_ip_reputation. -/
def dnsbl_hosts : List PyStr :=
  ["zen.spamhaus.org".toList, "bl.spamcop.net".toList, "dnsbl.sorbs.net".toList]

/-- The reversed-octet form of an IP string:
'.'.join(reversed(ip_address.split('.'))). -/
def reversed_ip (ip : PyStr) : PyStr :=
  joinWith ['.'] (splitOnChar '.' ip).reverse

/-- The DNSBL query name for one service (the f-string on line 127). -/
def dnsblQuery (ip dnsbl : PyStr) : PyStr :=
  reversed_ip ip ++ ['.'] ++ dnsbl

/-- One iteration of the DNSBL loop: resolves is the oracle telling
whether socket.gethostbyname succeeds on a name.  A resolvable query marks
the service LISTED and sets blacklisted; a gaierror marks it OK. -/
def dnsblStep (resolves : PyStr → Bool) (ip : PyStr) (rep : Reputation)
    (dnsbl : PyStr) : Reputation :=
  if resolves (dnsblQuery ip dnsbl) then
    { blacklisted := true, checks := rep.checks ++ [(dnsbl, "LISTED".toList)] }
  else
    { blacklisted := rep.blacklisted, checks := rep.checks ++ [(dnsbl, "OK".toList)] }

/-- Translation of stage3_ip_reputation: when the stage is disabled the
dictionary holds only blacklisted=False (modelled with empty checks);
otherwise the loop over dnsbl_hosts runs from the initial accumulator. -/
def stage3_ip_reputation (enabled : Bool) (resolves : PyStr → Bool)
    (ip : PyStr) : Reputation :=
  if enabled = false then { blacklisted := false, checks := [] }
  else dnsbl_hosts.foldl (dnsblStep resolves ip) { blacklisted := false, checks := [] }

/-- The same loop, also collecting the DNS query names issued: each
iteration of the source loop calls socket.gethostbyname(query) exactly
once, before branching on the outcome, and no cache is consulted
anywhere in the function. -/
def stage3_traced (enabled : Bool) (resolves : PyStr → Bool)
    (ip : PyStr) : Reputation × List PyStr :=
  if enabled = false then ({ blacklisted := false, checks := [] }, [])
  else
    dnsbl_hosts.foldl
      (fun acc dnsbl => (dnsblStep resolves ip acc.1 dnsbl, acc.2 ++ [dnsblQuery ip dnsbl]))
      ({ blacklisted := false, checks := [] }, [])

/-!  ProxyValidator.stage7_tls_validation (proxy_validator.py lines 190-206).  -/

/-- Result dictionary of the TLS stage. -/
structure TLSResult where
  valid : Bool
  error : Option PyStr
deriving DecidableEq

/-- Translation of stage7_tls_validation: disabled returns valid=True,
enabled always returns valid=False with the fixed error message.  The
proxy_config argument is ignored, as in the source. -/
def stage7_tls_validation (enabled : Bool) (proxy_config : PyStr) : TLSResult :=
  if enabled = false then { valid := true, error := none }
  else { valid := false, error := some "TLS validation not implemented".toList }

/-!  ProxyValidator.validate_proxy (proxy_validator.py lines 208-248).  -/

/-- Oracle for the network effects of a run: tcp models
stage1_tcp_check (socket connect success), resolve models
socket.gethostbyname (some resolved-IP string, or none for a resolution
error).  DNSBL lookups in stage 3 use the same gethostbyname call, so
their success is (resolve query).isSome. -/
structure NetOracle where
  tcp : PyStr → Int → Bool
  resolve : PyStr → Option PyStr

/-- The per-proxy result dictionary built by validate_proxy.  The stages
dictionary only ever receives the keys tcp and ip_reputation, modelled as
the two option fields; host and port are present only after a TCP pass. -/
structure ValidationResult where
  uri : PyStr
  protocol : PyStr
  valid : Bool
  tcpStage : Option Bool
  ipReputation : Option Reputation
  host : Option PyStr
  port : Option Int
deriving DecidableEq

/-- Translation of validate_proxy.  Python truthiness: "if not host or
not port" rejects exactly the empty host string and port 0.  On a TCP
pass the source records the tcp stage, host and port, then tries
gethostbyname(host) and stage 3 inside a bare except (a resolution
failure leaves ip_reputation absent), and finally sets valid=True
unconditionally. -/
def validate_proxy (net : NetOracle) (uri : PyStr) : ValidationResult :=
  let base : ValidationResult :=
    { uri := uri, protocol := detect_protocol uri, valid := false,
      tcpStage := none, ipReputation := none, host := none, port := none }
  match extract_host_port uri with
  | none => base
  | some (host, port) =>
    if host = [] ∨ port = 0 then base
    else if net.tcp host port then
      { base with
        valid := true
        tcpStage := some true
        host := some host
        port := some port
        ipReputation :=
          match net.resolve host with
          | some ip =>
            some (stage3_ip_reputation ENABLE_STAGE3_IP_REPUTATION
              (fun q => (net.resolve q).isSome) ip)
          | none => none }
    else base

/-- Translation of stage1_tcp_check (proxy_validator.py lines 56-77)
with its error path made explicit: sock.connect((host, port)) raises
OverflowError inside getsockaddrarg when the port is outside 0-65535,
and the except clause on line 76 catches only socket.timeout,
socket.error and OSError, so that exception propagates out of the
method; none models that uncaught exception.  For an in-range port the
oracle decides the connect outcome (port 0 is inside the sockaddr range,
so it does not raise here — validate_proxy already rejects it earlier
through the falsiness guard). -/
def stage1_tcp_check (net : NetOracle) (host : PyStr) (port : Int) : Option Bool :=
  if port < 0 ∨ 65535 < port then none
  else some (net.tcp host port)

/-- validate_proxy with the stage-1 error path made explicit: the source
has no handler around the stage-1 call (the try on lines 240-244 covers
only host resolution and stage 3), so an OverflowError from stage 1
propagates out of validate_proxy and aborts the run; none models that
crash, in which no record is produced at all.  On every other path this
agrees with validate_proxy (see validate_proxy_exc_agrees). -/
def validate_proxy_exc (net : NetOracle) (uri : PyStr) : Option ValidationResult :=
  let base : ValidationResult :=
    { uri := uri, protocol := detect_protocol uri, valid := false,
      tcpStage := none, ipReputation := none, host := none, port := none }
  match extract_host_port uri with
  | none => some base
  | some (host, port) =>
    if host = [] ∨ port = 0 then some base
    else
      match stage1_tcp_check net host port with
      | none => none
      | some true =>
        some { base with
          valid := true
          tcpStage := some true
          host := some host
          port := some port
          ipReputation :=
            match net.resolve host with
            | some ip =>
              some (stage3_ip_reputation ENABLE_STAGE3_IP_REPUTATION
                (fun q => (net.resolve q).isSome) ip)
            | none => none }
      | some false => some base

/-!  ProxyValidator.run_validation (proxy_validator.py lines 291-306).  -/

/-- The body of the loop in run_validation: a result is appended to
self.results only when result.valid is true. -/
def runStep (net : NetOracle) (results : List ValidationResult)
    (proxy : PyStr) : List ValidationResult :=
  let result := validate_proxy net proxy
  if result.valid then results ++ [result] else results

/-- Translation of run_validation: fold the loop body over the input
list, starting from the empty self.results. -/
def run_validation (net : NetOracle) (proxies : List PyStr) : List ValidationResult :=
  proxies.foldl (runStep net) []

/-!  Concrete oracles used for witnesses and counterexamples.  -/

/-- A network where every TCP connect succeeds and every name resolves
(to 1.2.3.4); under it every DNSBL query resolves, so every reputation
check reports blacklisted. -/
def badNet : NetOracle :=
  { tcp := fun _ _ => true
    resolve := fun _ => some "1.2.3.4".toList }

/-- A network where every TCP connect fails and no name resolves. -/
def noNet : NetOracle :=
  { tcp := fun _ _ => false
    resolve := fun _ => none }

/-!  General lemmas about the embedding.  -/

/-- splitOnChar never returns the empty list. -/
theorem splitOnChar_ne_nil (sep : Char) : ∀ s : PyStr, splitOnChar sep s ≠ []
  | [] => by simp [splitOnChar]
  | c :: rest => by
    unfold splitOnChar
    by_cases hc : c = sep
    · simp [hc]
    · simp only [if_neg hc]
      cases h : splitOnChar sep rest <;> simp

/-- A string not containing the separator splits into the single whole
string. -/
theorem splitOnChar_not_mem (sep : Char) :
    ∀ s : PyStr, sep ∉ s → splitOnChar sep s = [s]
  | [], _ => rfl
  | c :: rest, h => by
    have hc : ¬ c = sep := fun e => h (e ▸ List.mem_cons_self c rest)
    have ih := splitOnChar_not_mem sep rest (fun m => h (List.mem_cons_of_mem c m))
    unfold splitOnChar
    rw [if_neg hc, ih]

/-- run_validation keeps exactly the valid results of the per-proxy runs,
in input order. -/
theorem run_validation_foldl (net : NetOracle) :
    ∀ (ps : List PyStr) (acc : List ValidationResult),
      ps.foldl (runStep net) acc
        = acc ++ (ps.map (validate_proxy net)).filter (fun r => r.valid)
  | [], acc => by simp
  | p :: ps, acc => by
    simp only [List.foldl_cons, List.map_cons, List.filter_cons]
    rw [run_validation_foldl net ps]
    unfold runStep
    cases hv : (validate_proxy net p).valid <;> simp [hv]

/-- run_validation as a filter of the mapped validations. -/
theorem run_validation_eq_filter (net : NetOracle) (proxies : List PyStr) :
    run_validation net proxies
      = (proxies.map (validate_proxy net)).filter (fun r => r.valid) := by
  simpa using run_validation_foldl net proxies []

/-- On every input whose extracted port lies inside the sockaddr range
0-65535 (and on every input that fails extraction or the falsiness
guard), the exception-aware model agrees with validate_proxy: the crash
path is the only difference between the two. -/
theorem validate_proxy_exc_agrees (net : NetOracle) (uri : PyStr)
    (hok : ∀ host port, extract_host_port uri = some (host, port) →
      0 ≤ port ∧ port ≤ 65535) :
    validate_proxy_exc net uri = some (validate_proxy net uri) := by
  unfold validate_proxy_exc validate_proxy
  cases hex : extract_host_port uri with
  | none => rfl
  | some hp =>
    obtain ⟨host, port⟩ := hp
    dsimp only
    by_cases hg : host = [] ∨ port = 0
    · rw [if_pos hg, if_pos hg]
    · rw [if_neg hg, if_neg hg]
      have hr := hok host port hex
      unfold stage1_tcp_check
      rw [if_neg (by omega)]
      cases ht : net.tcp host port <;> simp [ht]

/-!  Claim theorems.  -/

/-- Claim C1, counterexample: under a network where every name resolves,
the proxy vless://u@h:443 passes TCP, its enabled reputation stage
reports blacklisted=true on every service, and validate_proxy still
returns a record with valid=true (and records nothing as skipped). -/
theorem C1_counterexample :
    (validate_proxy badNet "vless://u@h:443".toList).valid = true ∧
    (validate_proxy badNet "vless://u@h:443".toList).ipReputation =
      some { blacklisted := true,
             checks := [("zen.spamhaus.org".toList, "LISTED".toList),
                        ("bl.spamcop.net".toList, "LISTED".toList),
                        ("dnsbl.sorbs.net".toList, "LISTED".toList)] } :=
  ⟨rfl, rfl⟩

/-- Claim C1 as amended: once the TCP probe passes (with a non-empty host
and nonzero port), validate_proxy returns valid=true unconditionally —
the reputation outcome, blacklisted or not, never changes the verdict,
and no stage is recorded as skipped. -/
theorem C1_tcp_pass_forces_valid (net : NetOracle) (uri host : PyStr) (port : Int)
    (hex : extract_host_port uri = some (host, port))
    (hh : host ≠ []) (hp : port ≠ 0)
    (ht : net.tcp host port = true) :
    (validate_proxy net uri).valid = true ∧
    (validate_proxy net uri).tcpStage = some true := by
  unfold validate_proxy
  rw [hex]
  dsimp only
  rw [if_neg (by simp [hh, hp]), if_pos ht]
  exact ⟨rfl, rfl⟩

/-- Claim C1 amended, witness at a concrete blacklisted-everywhere
network and proxy. -/
theorem C1_tcp_pass_forces_valid_witness :
    (validate_proxy badNet "trojan://p@h2:80".toList).valid = true ∧
    (validate_proxy badNet "trojan://p@h2:80".toList).tcpStage = some true :=
  C1_tcp_pass_forces_valid badNet "trojan://p@h2:80".toList "h2".toList 80
    rfl (by decide) (by decide) rfl

/-- Claim C2, counterexample: the URI http://user@host:443 has an
unsupported scheme, so its protocol is Unknown, yet extraction returns
host and port rather than none, stage 1 runs, stage 3 runs (the
reputation field is populated), and the record ends with valid=true. -/
theorem C2_counterexample :
    detect_protocol "http://user@host:443".toList = "Unknown".toList ∧
    extract_host_port "http://user@host:443".toList = some ("host".toList, 443) ∧
    (validate_proxy badNet "http://user@host:443".toList).valid = true ∧
    (validate_proxy badNet "http://user@host:443".toList).ipReputation ≠ none := by
  refine ⟨rfl, rfl, rfl, ?_⟩
  have h : (validate_proxy badNet "http://user@host:443".toList).ipReputation =
      some { blacklisted := true,
             checks := [("zen.spamhaus.org".toList, "LISTED".toList),
                        ("bl.spamcop.net".toList, "LISTED".toList),
                        ("dnsbl.sorbs.net".toList, "LISTED".toList)] } := rfl
  rw [h]
  exact Option.some_ne_none _

/-- Claim C2 as amended: a URI on which extraction fails (in particular
any URI without an at sign, and URIs with a non-numeric port) ends with
valid=false and neither stage 1 nor stage 3 recorded; but the scheme is
never examined during extraction, so an unknown-scheme URI with a
well-formed authority is processed like a supported one and can proceed
through stage 1 and stage 3. -/
theorem C2_parse_failure_gates :
    (∀ (net : NetOracle) (uri : PyStr), extract_host_port uri = none →
        (validate_proxy net uri).valid = false ∧
        (validate_proxy net uri).tcpStage = none ∧
        (validate_proxy net uri).ipReputation = none) ∧
    (∀ uri : PyStr, '@' ∉ uri → extract_host_port uri = none) ∧
    extract_host_port "vless://u@h:x1".toList = none ∧
    (detect_protocol "http://user@host:443".toList = "Unknown".toList ∧
      (validate_proxy badNet "http://user@host:443".toList).tcpStage = some true) := by
  refine ⟨?_, ?_, rfl, rfl, rfl⟩
  · intro net uri hex
    unfold validate_proxy
    rw [hex]
    exact ⟨rfl, rfl, rfl⟩
  · intro uri h
    unfold extract_host_port
    rw [splitOnChar_not_mem '@' uri h]

/-- Claim C2 amended, witness: a URI without an at sign fails extraction
and its run records nothing. -/
theorem C2_parse_failure_gates_witness :
    extract_host_port "not-a-uri".toList = none ∧
    (validate_proxy badNet "not-a-uri".toList).valid = false ∧
    (validate_proxy badNet "not-a-uri".toList).tcpStage = none ∧
    (validate_proxy badNet "not-a-uri".toList).ipReputation = none :=
  ⟨C2_parse_failure_gates.2.1 "not-a-uri".toList (by decide),
   C2_parse_failure_gates.1 badNet "not-a-uri".toList rfl⟩

/-- Claim C3, counterexample: a run over a single URI that fails parsing
produces an empty result list — the input URI has no recorded outcome. -/
theorem C3_counterexample :
    run_validation noNet ["not-a-uri-2".toList] = [] := rfl

/-- Claim C3 as amended: the recorded results of a completed run are
exactly the per-proxy records with valid=true, in input order; a URI
whose run ends invalid (parse failure, stage-1 failure) is absent from
the results (it is only counted in the stats). -/
theorem C3_results_only_valid (net : NetOracle) (proxies : List PyStr)
    (r : ValidationResult) :
    r ∈ run_validation net proxies ↔
      (r.valid = true ∧ ∃ p ∈ proxies, r = validate_proxy net p) := by
  rw [run_validation_eq_filter]
  constructor
  · intro hr
    rcases List.mem_filter.mp hr with ⟨hm, hv⟩
    rcases List.mem_map.mp hm with ⟨p, hp, he⟩
    exact ⟨hv, p, hp, he.symm⟩
  · rintro ⟨hv, p, hp, he⟩
    exact List.mem_filter.mpr ⟨List.mem_map.mpr ⟨p, hp, he.symm⟩, hv⟩

/-- Claim C3 amended, witness: a valid proxy does appear in the results
of its run. -/
theorem C3_results_only_valid_witness :
    validate_proxy badNet "vless://u3@h3:443".toList ∈
      run_validation badNet ["vless://u3@h3:443".toList] :=
  (C3_results_only_valid badNet ["vless://u3@h3:443".toList]
      (validate_proxy badNet "vless://u3@h3:443".toList)).mpr
    ⟨rfl, "vless://u3@h3:443".toList, List.mem_singleton.mpr rfl, rfl⟩

/-- Claim C4: the reputation stage consults no cache — each call for the
same IP issues the DNS queries to all three configured services again,
so two lookups within the TTL issue six queries, not three.  The trace
component collects the gethostbyname query names issued by the loop,
which are the same three names on every call, whatever the resolver
answers; BLACKLIST_CACHE_TIME is defined but never read. -/
theorem C4_cache_never_consulted (resolves : PyStr → Bool) :
    (stage3_traced true resolves "1.2.3.4".toList).2
      = ["4.3.2.1.zen.spamhaus.org".toList, "4.3.2.1.bl.spamcop.net".toList,
         "4.3.2.1.dnsbl.sorbs.net".toList] ∧
    ((stage3_traced true resolves "1.2.3.4".toList).2
      ++ (stage3_traced true resolves "1.2.3.4".toList).2).length = 6 ∧
    BLACKLIST_CACHE_TIME = 3600 :=
  ⟨rfl, rfl, rfl⟩

/-- The DNSBL loop, over any service list: the accumulated blacklisted
flag is the disjunction of the incoming flag with the per-service listed
results, and one checks entry is appended per service, LISTED when its
query resolves and OK otherwise. -/
theorem dnsblStep_foldl (resolves : PyStr → Bool) (ip : PyStr) :
    ∀ (l : List PyStr) (acc : Reputation),
      ((l.foldl (dnsblStep resolves ip) acc).blacklisted
        = (acc.blacklisted || l.any fun svc => resolves (dnsblQuery ip svc))) ∧
      ((l.foldl (dnsblStep resolves ip) acc).checks
        = acc.checks ++ l.map fun svc =>
            (svc, if resolves (dnsblQuery ip svc) then "LISTED".toList else "OK".toList))
  | [], acc => by simp
  | svc :: l, acc => by
    have ih := dnsblStep_foldl resolves ip l (dnsblStep resolves ip acc svc)
    cases hr : resolves (dnsblQuery ip svc) <;>
      simp [dnsblStep, hr] at ih <;>
      simp [dnsblStep, hr, ih.1, ih.2, Bool.or_assoc]

/-- Claim C5: for every resolver behaviour and every IP, the reputation
stage records LISTED exactly on the services whose reversed-octet query
name resolves and OK on the others, and the aggregate blacklisted flag
is the disjunction of the per-service listed results; the query name for
a four-octet address is the dot-join of the reversed octets followed by
the service host. -/
theorem C5_dnsbl_reversal_and_or (resolves : PyStr → Bool) (ip : PyStr) :
    (stage3_ip_reputation true resolves ip).blacklisted
      = dnsbl_hosts.any (fun svc => resolves (dnsblQuery ip svc)) ∧
    (stage3_ip_reputation true resolves ip).checks
      = dnsbl_hosts.map (fun svc =>
          (svc, if resolves (dnsblQuery ip svc) then "LISTED".toList else "OK".toList)) ∧
    ∀ a b c d : PyStr, splitOnChar '.' ip = [a, b, c, d] →
      ∀ svc : PyStr, dnsblQuery ip svc = joinWith ['.'] [d, c, b, a] ++ ['.'] ++ svc := by
  refine ⟨?_, ?_, ?_⟩
  · have h := (dnsblStep_foldl resolves ip dnsbl_hosts
      { blacklisted := false, checks := [] }).1
    simpa [stage3_ip_reputation] using h
  · have h := (dnsblStep_foldl resolves ip dnsbl_hosts
      { blacklisted := false, checks := [] }).2
    simpa [stage3_ip_reputation] using h
  · intro a b c d h svc
    simp [dnsblQuery, reversed_ip, h]

/-- Claim C5, witness: for 1.2.3.4 with a resolver listing it only on
the first service, the stage reports blacklisted with the per-service
detail, and the query name is the reversed-octet name. -/
theorem C5_dnsbl_reversal_and_or_witness :
    (stage3_ip_reputation true
        (fun q => q == "4.3.2.1.zen.spamhaus.org".toList) "1.2.3.4".toList).blacklisted
      = true ∧
    dnsblQuery "1.2.3.4".toList "zen.spamhaus.org".toList
      = joinWith ['.'] ["4".toList, "3".toList, "2".toList, "1".toList]
          ++ ['.'] ++ "zen.spamhaus.org".toList := by
  constructor
  · rw [(C5_dnsbl_reversal_and_or
      (fun q => q == "4.3.2.1.zen.spamhaus.org".toList) "1.2.3.4".toList).1]
    decide
  · exact (C5_dnsbl_reversal_and_or
      (fun q => q == "4.3.2.1.zen.spamhaus.org".toList) "1.2.3.4".toList).2.2
      "1".toList "2".toList "3".toList "4".toList rfl "zen.spamhaus.org".toList

/-- Claim C6: when the stage-1 TCP probe fails for the extracted host and
port, the record has valid=false, no tcp outcome, and no reputation
outcome — no stage after stage 1 runs and nothing later is a pass. -/
theorem C6_tcp_fail_blocks_rest (net : NetOracle) (uri host : PyStr) (port : Int)
    (hex : extract_host_port uri = some (host, port))
    (ht : net.tcp host port = false) :
    (validate_proxy net uri).valid = false ∧
    (validate_proxy net uri).tcpStage = none ∧
    (validate_proxy net uri).ipReputation = none := by
  unfold validate_proxy
  rw [hex]
  dsimp only
  by_cases hguard : host = [] ∨ port = 0
  · rw [if_pos hguard]
    exact ⟨rfl, rfl, rfl⟩
  · rw [if_neg hguard, if_neg (by simp [ht])]
    exact ⟨rfl, rfl, rfl⟩

/-- Claim C6, witness: under a dead network the example proxy fails
stage 1 and its record shows nothing beyond the parse. -/
theorem C6_tcp_fail_blocks_rest_witness :
    (validate_proxy noNet "vless://u6@h6:443".toList).valid = false ∧
    (validate_proxy noNet "vless://u6@h6:443".toList).tcpStage = none ∧
    (validate_proxy noNet "vless://u6@h6:443".toList).ipReputation = none :=
  C6_tcp_fail_blocks_rest noNet "vless://u6@h6:443".toList "h6".toList 443 rfl rfl

/-- Claim C8, counterexample: with a fragment but no query string, the
claimed extraction host=host, port=443 does not happen — the source only
splits on the question mark, so the port text 443#Label is non-numeric
and extraction fails. -/
theorem C8_counterexample :
    extract_host_port "vless://cred@host:443#Label".toList = none := rfl

/-- Claim C8 as amended: the authority segment is taken between the
first and second at sign (or the end of the string), truncated at the
first question mark only; a hash is not a delimiter, so a fragment not
preceded by a question mark makes the port non-numeric and extraction
returns none. -/
theorem C8_authority_segment :
    extract_host_port "vless://cred@host:443#Label".toList = none ∧
    extract_host_port "vless://cred@host:443?security=tls#Label".toList
      = some ("host".toList, 443) ∧
    extract_host_port "ss://u@x@h:80".toList = none ∧
    extract_host_port "ss://u@h:80@tail".toList = some ("h".toList, 80) :=
  ⟨rfl, rfl, rfl, rfl⟩

/-- Claim C9: with the stage enabled (as config.py enables it),
stage7_tls_validation reports valid=False with the fixed error for every
proxy configuration, and with the stage disabled it reports valid=True
for every configuration; enabling the stage can never report a TLS-valid
proxy. -/
theorem C9_tls_stage_constant (proxy_config : PyStr) :
    (stage7_tls_validation true proxy_config).valid = false ∧
    (stage7_tls_validation true proxy_config).error
      = some "TLS validation not implemented".toList ∧
    (stage7_tls_validation false proxy_config).valid = true ∧
    (stage7_tls_validation false proxy_config).error = none ∧
    ENABLE_STAGE7_TLS_VALIDATION = true :=
  ⟨rfl, rfl, rfl, rfl, rfl⟩

/-- Claim C10, counterexample: extraction can return an empty host — the
URI a@:5 yields host equal to the empty string together with port 5, not
(None, None) and not a non-empty host. -/
theorem C10_counterexample :
    extract_host_port "a@:5".toList = some (([] : PyStr), 5) := rfl

/-- Claim C10 as amended: extract_host_port is total by construction and
returns either none or a pair whose port was parsed by the Python int
model from the text after the last colon of the authority segment, the
host being the (possibly empty) text before that colon; any URI without
an at sign yields none. -/
theorem C10_extract_shape (uri : PyStr) :
    ('@' ∉ uri → extract_host_port uri = none) ∧
    (∀ (host : PyStr) (port : Int), extract_host_port uri = some (host, port) →
      ∃ seg host_port parts,
        (splitOnChar '@' uri).get? 1 = some seg ∧
        (splitOnChar '?' seg).headD [] = host_port ∧
        splitOnChar ':' host_port = parts ∧
        2 ≤ parts.length ∧
        host = joinWith [':'] parts.dropLast ∧
        pyInt (parts.getLastD []) = some port) := by
  constructor
  · intro h
    unfold extract_host_port
    rw [splitOnChar_not_mem '@' uri h]
  · intro host port h
    unfold extract_host_port at h
    split at h
    next x seg rest heq1 =>
      split at h
      next host_port rest3 heq2 =>
        split at h
        next p1 => exact absurd h (by simp)
        next parts hne heq3 =>
          rcases e4 : pyInt ((splitOnChar ':' host_port).getLastD []) with _ | p
          · rw [e4] at h
            exact absurd h (by simp)
          · rw [e4] at h
            simp only [Option.some.injEq, Prod.mk.injEq] at h
            refine ⟨seg, host_port, splitOnChar ':' host_port,
              by rw [heq1]; rfl, by rw [heq2]; rfl, rfl, ?_, h.1.symm, ?_⟩
            · rcases e5 : splitOnChar ':' host_port with _ | ⟨q1, _ | ⟨q2, qs⟩⟩
              · exact absurd e5 (splitOnChar_ne_nil ':' host_port)
              · exact (heq3 q1 e5).elim
              · simp [e5]
            · rw [← h.2]
              exact e4
      next heq2 => exact absurd h (by simp)
    next x heq1 => exact absurd h (by simp)

/-- Claim C10 amended, witness at the URI u@h:42. -/
theorem C10_extract_shape_witness :
    ∃ seg host_port parts,
      (splitOnChar '@' "u@h:42".toList).get? 1 = some seg ∧
      (splitOnChar '?' seg).headD [] = host_port ∧
      splitOnChar ':' host_port = parts ∧
      2 ≤ parts.length ∧
      "h".toList = joinWith [':'] parts.dropLast ∧
      pyInt (parts.getLastD []) = some 42 :=
  (C10_extract_shape "u@h:42".toList).2 "h".toList 42 rfl
